import Mathlib

/-!
# Verification of the mortgage amortization engine

A shallow embedding, over exact rationals `ℚ`, of the mortgage repayment
calculator (`calculateRepayment.ts`): the monthly-payment annuity formula,
the aggregate repayment figures, the affordability stress test, the
month-by-month yearly balance schedule, and the aggregate record.

JavaScript numbers are modelled as rationals.  Every finite double is a
rational, so the arithmetic of the source is captured exactly; the IEEE
artifacts (`Infinity`, `NaN`, division by zero producing non-finite values)
have no counterpart here — in `ℚ` division by zero yields `0`.
`Math.pow` is modelled honestly only at integer exponents (a fractional
exponent yields an irrational result, which leaves the rational model);
theorems about the compound-interest branch therefore take the term in
whole years.
-/

namespace MortgageCalc

/-- Model of `Math.pow` restricted to the rational world: faithful whenever
the exponent is an integer (`e.den = 1`), where JavaScript's `Math.pow`
computes an exact integer power; at a fractional exponent the JavaScript
result is irrational, outside this model, and the value `0` returned here
is a placeholder never relied upon by any theorem. -/
def jsPow (b e : ℚ) : ℚ :=
  if e.den = 1 then b ^ e.num else 0

/-- `calculateMonthlyPayment(propertyPrice, deposit, annualInterestRate,
mortgageTermInYears)` from `calculateRepayment.ts`: straight-line division
when the monthly rate is zero, otherwise the fixed-rate annuity formula. -/
def calculateMonthlyPayment (propertyPrice deposit annualInterestRate
    mortgageTermInYears : ℚ) : ℚ :=
  let adjustedLoanAmount := propertyPrice - deposit
  let monthlyInterestRate := annualInterestRate / 100 / 12
  let numberOfPayments := mortgageTermInYears * 12
  if monthlyInterestRate = 0 then
    adjustedLoanAmount / numberOfPayments
  else
    adjustedLoanAmount * monthlyInterestRate
        * jsPow (1 + monthlyInterestRate) numberOfPayments
      / (jsPow (1 + monthlyInterestRate) numberOfPayments - 1)

/-- `calculateTotalRepayment(monthlyPayment, mortgageTermInYears)`. -/
def calculateTotalRepayment (monthlyPayment mortgageTermInYears : ℚ) : ℚ :=
  monthlyPayment * mortgageTermInYears * 12

/-- `calculateCapital(propertyPrice, deposit)`. -/
def calculateCapital (propertyPrice deposit : ℚ) : ℚ :=
  propertyPrice - deposit

/-- `calculateInterest(totalRepayment, capital)`. -/
def calculateInterest (totalRepayment capital : ℚ) : ℚ :=
  totalRepayment - capital

/-- `calculateAffordabilityCheck(propertyPrice, deposit, annualInterestRate,
mortgageTermInYears)`: the monthly payment at the rate stressed by 3
percentage points. -/
def calculateAffordabilityCheck (propertyPrice deposit annualInterestRate
    mortgageTermInYears : ℚ) : ℚ :=
  calculateMonthlyPayment propertyPrice deposit (annualInterestRate + 3)
    mortgageTermInYears

/-- One iteration of the inner month loop of `calculateYearlyBreakdown`:
charge interest, deduct the principal portion of the payment, and clamp the
balance at zero when it would go negative. -/
def monthStep (monthlyInterestRate monthlyPayment balance : ℚ) : ℚ :=
  let interestPayment := balance * monthlyInterestRate
  let principalPayment := monthlyPayment - interestPayment
  let newBalance := balance - principalPayment
  if newBalance < 0 then 0 else newBalance

/-- The month-loop body of `calculateYearlyBreakdown` with the clamp guard
removed: used only to state that the guard never fires on well-behaved
inputs. -/
def rawMonthStep (monthlyInterestRate monthlyPayment balance : ℚ) : ℚ :=
  let interestPayment := balance * monthlyInterestRate
  let principalPayment := monthlyPayment - interestPayment
  balance - principalPayment

/-- The inner `for (month = 1; month <= 12; ...)` loop: twelve month steps. -/
def yearStep (monthlyInterestRate monthlyPayment balance : ℚ) : ℚ :=
  (monthStep monthlyInterestRate monthlyPayment)^[12] balance

/-- The outer year loop of `calculateYearlyBreakdown`: starting from balance
`b` at year number `year`, run `k` more years, pushing one
`(year, remainingDebt)` pair per completed year. -/
def breakdownAux (monthlyInterestRate monthlyPayment b : ℚ) (year : ℕ) :
    ℕ → List (ℚ × ℚ)
  | 0 => []
  | Nat.succ k =>
    let nb := yearStep monthlyInterestRate monthlyPayment b
    ((year : ℚ), nb) :: breakdownAux monthlyInterestRate monthlyPayment nb
      (year + 1) k

/-- `calculateYearlyBreakdown(propertyPrice, deposit, annualInterestRate,
mortgageTermInYears)`: the remaining balance at the end of each year.  The
JavaScript loop `for (let year = 1; year <= mortgageTermInYears; year++)`
runs `⌊mortgageTermInYears⌋` times when the term is nonnegative and not at
all otherwise, which is `(⌊mortgageTermInYears⌋).toNat` iterations. -/
def calculateYearlyBreakdown (propertyPrice deposit annualInterestRate
    mortgageTermInYears : ℚ) : List (ℚ × ℚ) :=
  let capital := calculateCapital propertyPrice deposit
  let monthlyPayment := calculateMonthlyPayment propertyPrice deposit
    annualInterestRate mortgageTermInYears
  let monthlyInterestRate := annualInterestRate / 100 / 12
  breakdownAux monthlyInterestRate monthlyPayment capital 1
    (Int.toNat ⌊mortgageTermInYears⌋)

/-- The record returned by `calculateMortgage`. -/
structure MortgageCalculationResults where
  monthlyPayment : ℚ
  totalRepayment : ℚ
  capital : ℚ
  interest : ℚ
  affordabilityCheck : ℚ
  yearlyBreakdown : List (ℚ × ℚ)
  deriving DecidableEq

/-- `calculateMortgage(propertyPrice, deposit, annualInterestRate,
mortgageTermInYears)`: composes the component functions on the identical
four inputs. -/
def calculateMortgage (propertyPrice deposit annualInterestRate
    mortgageTermInYears : ℚ) : MortgageCalculationResults :=
  let monthlyPayment := calculateMonthlyPayment propertyPrice deposit
    annualInterestRate mortgageTermInYears
  let capital := calculateCapital propertyPrice deposit
  let totalRepayment := calculateTotalRepayment monthlyPayment
    mortgageTermInYears
  let interest := calculateInterest totalRepayment capital
  let affordabilityCheck := calculateAffordabilityCheck propertyPrice deposit
    annualInterestRate mortgageTermInYears
  let yearlyBreakdown := calculateYearlyBreakdown propertyPrice deposit
    annualInterestRate mortgageTermInYears
  { monthlyPayment := monthlyPayment
    totalRepayment := totalRepayment
    capital := capital
    interest := interest
    affordabilityCheck := affordabilityCheck
    yearlyBreakdown := yearlyBreakdown }

/-- The `remainingDebt` field of snapshot `j` (0-based) of a yearly
breakdown, with default `0` out of range. -/
def snapshotDebt (propertyPrice deposit annualInterestRate
    mortgageTermInYears : ℚ) (j : ℕ) : ℚ :=
  ((calculateYearlyBreakdown propertyPrice deposit annualInterestRate
    mortgageTermInYears).getD j (0, 0)).2

/-- The `year` field of snapshot `j` (0-based) of a yearly breakdown. -/
def snapshotYear (propertyPrice deposit annualInterestRate
    mortgageTermInYears : ℚ) (j : ℕ) : ℚ :=
  ((calculateYearlyBreakdown propertyPrice deposit annualInterestRate
    mortgageTermInYears).getD j (0, 0)).1

/-- Analytic proof device (not part of the source): the present value of an
annuity of `N` monthly payments of `1` at monthly rate `i`.  The annuity
payment of the source equals `(P - D) / annuitySum i N`, which makes its
monotonicity in the rate termwise. -/
def annuitySum (i : ℚ) (N : ℕ) : ℚ :=
  ∑ k ∈ Finset.range N, ((1 + i)⁻¹) ^ (k + 1)

/-! ## Structural lemmas about the schedule loop -/

/-- The model of `Math.pow` agrees with the natural power at natural
exponents. -/
lemma jsPow_natCast (b : ℚ) (k : ℕ) : jsPow b (k : ℚ) = b ^ k := by
  simp [jsPow, Rat.den_natCast, Rat.num_natCast, zpow_natCast]

/-- The year loop pushes one snapshot per iteration. -/
lemma breakdownAux_length (i m : ℚ) : ∀ (k : ℕ) (b : ℚ) (y : ℕ),
    (breakdownAux i m b y k).length = k := by
  intro k
  induction k with
  | zero => intro b y; rfl
  | succ k ih => intro b y; simpa [breakdownAux] using ih _ _

/-- Snapshot `j` (0-based) of the year loop started at year `y` from balance
`b` has year number `y + j` and carries the balance after `j + 1` further
years. -/
lemma breakdownAux_getD (i m : ℚ) : ∀ (k j : ℕ) (b : ℚ) (y : ℕ), j < k →
    (breakdownAux i m b y k).getD j (0, 0)
      = (((y + j : ℕ) : ℚ), (yearStep i m)^[j + 1] b) := by
  intro k
  induction k with
  | zero => intro j b y hj; exact absurd hj (Nat.not_lt_zero j)
  | succ k ih =>
    intro j b y hj
    cases j with
    | zero => simp [breakdownAux]
    | succ j =>
      have hjk : j < k := Nat.lt_of_succ_lt_succ hj
      calc (breakdownAux i m b y (k + 1)).getD (j + 1) (0, 0)
          = (breakdownAux i m (yearStep i m b) (y + 1) k).getD j (0, 0) := by
            simp [breakdownAux]
        _ = (((y + 1 + j : ℕ) : ℚ), (yearStep i m)^[j + 1] (yearStep i m b)) :=
            ih j (yearStep i m b) (y + 1) hjk
        _ = (((y + (j + 1) : ℕ) : ℚ), (yearStep i m)^[j + 1 + 1] b) := by
            simp only [Prod.mk.injEq]
            refine ⟨by push_cast; ring, (Function.iterate_succ_apply _ _ _).symm⟩

/-- Iterating the year loop `j` times is iterating the month loop `12 * j`
times. -/
lemma yearStep_iterate (i m : ℚ) (j : ℕ) (b : ℚ) :
    (yearStep i m)^[j] b = (monthStep i m)^[12 * j] b := by
  induction j generalizing b with
  | zero => simp
  | succ j ih =>
    rw [Function.iterate_succ_apply, ih, yearStep, ← Function.iterate_add_apply]
    congr 1

/-- A month step never produces a negative balance: the clamp guarantees it
unconditionally. -/
lemma monthStep_nonneg (i m b : ℚ) : 0 ≤ monthStep i m b := by
  unfold monthStep
  dsimp only
  split_ifs with h
  · exact le_refl 0
  · exact le_of_not_lt h

/-- The number of snapshots is the truncated term. -/
lemma calculateYearlyBreakdown_length (P D r T : ℚ) :
    (calculateYearlyBreakdown P D r T).length = (⌊T⌋).toNat := by
  unfold calculateYearlyBreakdown
  exact breakdownAux_length _ _ _ _ _

/-- Snapshot `j` of the schedule, in terms of the month loop. -/
lemma calculateYearlyBreakdown_getD (P D r T : ℚ) (j : ℕ)
    (hj : j < (⌊T⌋).toNat) :
    (calculateYearlyBreakdown P D r T).getD j (0, 0)
      = (((1 + j : ℕ) : ℚ),
         (monthStep (r / 100 / 12)
             (calculateMonthlyPayment P D r T))^[12 * (j + 1)]
           (calculateCapital P D)) := by
  unfold calculateYearlyBreakdown
  rw [breakdownAux_getD _ _ _ _ _ _ hj, yearStep_iterate]

/-- `monthStep` with its lets inlined. -/
lemma monthStep_eq (i m b : ℚ) :
    monthStep i m b = if b - (m - b * i) < 0 then 0 else b - (m - b * i) :=
  rfl

/-- `rawMonthStep` with its lets inlined. -/
lemma rawMonthStep_eq (i m b : ℚ) : rawMonthStep i m b = b - (m - b * i) :=
  rfl

/-- Closed form of the month loop at a zero monthly rate with the
straight-line payment `L / N`: after `k ≤ N` months the balance is exactly
`L * (N - k) / N`, and the clamp never fires. -/
lemma iterate_monthStep_zero_rate (L : ℚ) (N : ℕ) (hL : 0 ≤ L) (hN : 0 < N) :
    ∀ k : ℕ, k ≤ N →
      (monthStep 0 (L / (N : ℚ)))^[k] L = L * ((N : ℚ) - k) / N := by
  have hN0 : ((N : ℚ)) ≠ 0 := Nat.cast_ne_zero.mpr hN.ne'
  intro k
  induction k with
  | zero =>
    intro _
    push_cast
    field_simp
  | succ k ih =>
    intro hk1
    have hk : k ≤ N := Nat.le_of_succ_le hk1
    have hnext : L * ((N : ℚ) - k) / N - (L / (N : ℚ) - L * ((N : ℚ) - k) / N * 0)
        = L * ((N : ℚ) - (k + 1)) / N := by
      field_simp
      ring
    have hnn : 0 ≤ L * ((N : ℚ) - (k + 1)) / N := by
      apply div_nonneg _ (Nat.cast_nonneg N)
      apply mul_nonneg hL
      rw [sub_nonneg]
      exact_mod_cast Nat.cast_le.mpr hk1
    rw [Function.iterate_succ_apply', ih hk, monthStep_eq, hnext,
      if_neg (not_lt.mpr hnn)]
    push_cast
    ring_nf

/-- Closed form of the month loop at a positive monthly rate `i` with the
exact annuity payment: after `k ≤ N` months the balance is exactly
`L * ((1+i)^N - (1+i)^k) / ((1+i)^N - 1)`, and the clamp never fires. -/
lemma iterate_monthStep_pos_rate (L i : ℚ) (N : ℕ) (hL : 0 ≤ L) (hi : 0 < i)
    (hN : 0 < N) :
    ∀ k : ℕ, k ≤ N →
      (monthStep i (L * i * (1 + i) ^ N / ((1 + i) ^ N - 1)))^[k] L
        = L * ((1 + i) ^ N - (1 + i) ^ k) / ((1 + i) ^ N - 1) := by
  have hA : 1 < 1 + i := by linarith
  have hAN : 1 < (1 + i) ^ N := one_lt_pow₀ hA hN.ne'
  have hden : (0 : ℚ) < (1 + i) ^ N - 1 := by linarith
  intro k
  induction k with
  | zero =>
    intro _
    rw [pow_zero]
    field_simp
  | succ k ih =>
    intro hk1
    have hk : k ≤ N := Nat.le_of_succ_le hk1
    have hnext : L * ((1 + i) ^ N - (1 + i) ^ k) / ((1 + i) ^ N - 1)
          - (L * i * (1 + i) ^ N / ((1 + i) ^ N - 1)
              - L * ((1 + i) ^ N - (1 + i) ^ k) / ((1 + i) ^ N - 1) * i)
        = L * ((1 + i) ^ N - (1 + i) ^ (k + 1)) / ((1 + i) ^ N - 1) := by
      field_simp
      ring
    have hnn : 0 ≤ L * ((1 + i) ^ N - (1 + i) ^ (k + 1)) / ((1 + i) ^ N - 1) := by
      apply div_nonneg _ hden.le
      apply mul_nonneg hL
      rw [sub_nonneg]
      exact pow_le_pow_right₀ hA.le hk1
    rw [Function.iterate_succ_apply', ih hk, monthStep_eq, hnext,
      if_neg (not_lt.mpr hnn)]

/-- The compound branch of `calculateMonthlyPayment` at a whole-year term,
with `Math.pow` resolved to a natural power. -/
lemma calculateMonthlyPayment_pos_rate (P D r : ℚ) (T : ℕ)
    (hr : ¬ r / 100 / 12 = 0) :
    calculateMonthlyPayment P D r (T : ℚ)
      = (P - D) * (r / 100 / 12) * (1 + r / 100 / 12) ^ (12 * T)
          / ((1 + r / 100 / 12) ^ (12 * T) - 1) := by
  unfold calculateMonthlyPayment
  dsimp only
  rw [if_neg hr]
  have hcast : ((T : ℚ) * 12) = ((12 * T : ℕ) : ℚ) := by push_cast; ring
  rw [hcast, jsPow_natCast]

/-- The straight-line branch of `calculateMonthlyPayment` at a whole-year
term. -/
lemma calculateMonthlyPayment_zero_rate_nat (P D : ℚ) (T : ℕ) :
    calculateMonthlyPayment P D 0 (T : ℚ) = (P - D) / ((12 * T : ℕ) : ℚ) := by
  unfold calculateMonthlyPayment
  norm_num
  rw [mul_comm]

/-- A whole-year term is not truncated by the year loop. -/
lemma floor_toNat_natCast (T : ℕ) : (⌊(T : ℚ)⌋).toNat = T := by
  rw [Int.floor_natCast]
  exact Int.toNat_natCast T

/-- Closed form of the unclamped loop body at a zero monthly rate: the same
linear schedule, for every `k`. -/
lemma iterate_rawMonthStep_zero_rate (L : ℚ) (N : ℕ) (hN : 0 < N) :
    ∀ k : ℕ, (rawMonthStep 0 (L / (N : ℚ)))^[k] L = L * ((N : ℚ) - k) / N := by
  have hN0 : ((N : ℚ)) ≠ 0 := Nat.cast_ne_zero.mpr hN.ne'
  intro k
  induction k with
  | zero => field_simp
  | succ k ih =>
    rw [Function.iterate_succ_apply', ih, rawMonthStep_eq]
    push_cast
    field_simp
    ring

/-- A year step never produces a negative balance: it ends with a clamped
month step. -/
lemma yearStep_nonneg (i m b : ℚ) : 0 ≤ yearStep i m b := by
  rw [yearStep, show (12 : ℕ) = 11 + 1 from rfl, Function.iterate_succ_apply']
  exact monthStep_nonneg _ _ _

/-- Every snapshot pushed by the year loop carries a nonnegative balance. -/
lemma mem_breakdownAux_nonneg (i m : ℚ) : ∀ (k : ℕ) (b : ℚ) (y : ℕ)
    (p : ℚ × ℚ), p ∈ breakdownAux i m b y k → 0 ≤ p.2 := by
  intro k
  induction k with
  | zero => intro b y p hp; simp [breakdownAux] at hp
  | succ k ih =>
    intro b y p hp
    rw [breakdownAux] at hp
    rcases List.mem_cons.mp hp with h | h
    · rw [h]
      exact yearStep_nonneg _ _ _
    · exact ih _ _ _ h

/-- The remaining debt at the end of year `j + 1` (snapshot index `j`,
0-based) of a zero-rate schedule over `T` whole years: the linear formula
`(P - D) * (T - (j+1)) / T`. -/
lemma snapshotDebt_zero_rate (P D : ℚ) (T j : ℕ) (hj : j < T) (hD : D ≤ P) :
    snapshotDebt P D 0 (T : ℚ) j
      = (P - D) * ((T : ℚ) - ((j : ℚ) + 1)) / T := by
  have hT : 0 < T := Nat.lt_of_le_of_lt (Nat.zero_le j) hj
  have hL : 0 ≤ P - D := sub_nonneg.mpr hD
  have hj' : j < (⌊(T : ℚ)⌋).toNat := by rwa [floor_toNat_natCast]
  unfold snapshotDebt
  rw [calculateYearlyBreakdown_getD _ _ _ _ _ hj']
  dsimp only
  rw [show ((0 : ℚ) / 100 / 12) = 0 by norm_num,
    calculateMonthlyPayment_zero_rate_nat,
    show calculateCapital P D = P - D from rfl,
    iterate_monthStep_zero_rate (P - D) (12 * T) hL (by omega) (12 * (j + 1))
      (by omega)]
  have hT0 : ((T : ℚ)) ≠ 0 := Nat.cast_ne_zero.mpr hT.ne'
  push_cast
  field_simp
  ring

/-- The remaining debt at the end of year `j + 1` (snapshot index `j`,
0-based) of a positive-rate schedule over `T` whole years: the annuity
closed form. -/
lemma snapshotDebt_pos_rate (P D r : ℚ) (T j : ℕ) (hj : j < T) (hD : D ≤ P)
    (hr : 0 < r) :
    snapshotDebt P D r (T : ℚ) j
      = (P - D) * ((1 + r / 100 / 12) ^ (12 * T)
            - (1 + r / 100 / 12) ^ (12 * (j + 1)))
          / ((1 + r / 100 / 12) ^ (12 * T) - 1) := by
  have hT : 0 < T := Nat.lt_of_le_of_lt (Nat.zero_le j) hj
  have hi : 0 < r / 100 / 12 := by positivity
  have hL : 0 ≤ P - D := sub_nonneg.mpr hD
  have hj' : j < (⌊(T : ℚ)⌋).toNat := by rwa [floor_toNat_natCast]
  unfold snapshotDebt
  rw [calculateYearlyBreakdown_getD _ _ _ _ _ hj']
  dsimp only
  rw [calculateMonthlyPayment_pos_rate _ _ _ _ hi.ne',
    show calculateCapital P D = P - D from rfl]
  exact iterate_monthStep_pos_rate (P - D) (r / 100 / 12) (12 * T) hL hi
    (by omega) (12 * (j + 1)) (by omega)

/-- Comparison of two consecutive balances of the common shape `L * u / c`
and `L * v / c` with `v < u`, `0 < u`, `0 ≤ L`, `0 < c`: non-increasing,
strictly decreasing while positive, and absorbing at zero. -/
lemma step_triple (L u v c : ℚ) (hL : 0 ≤ L) (hc : 0 < c) (hvu : v < u)
    (hu : 0 < u) :
    L * v / c ≤ L * u / c ∧ (0 < L * u / c → L * v / c < L * u / c) ∧
      (L * u / c = 0 → L * v / c = 0) := by
  have hc0 : c ≠ 0 := hc.ne'
  refine ⟨?_, ?_, ?_⟩
  · exact (div_le_div_iff_of_pos_right hc).mpr (mul_le_mul_of_nonneg_left hvu.le hL)
  · intro hpos
    have hLu : 0 < L * u := by
      have := mul_pos hpos hc
      rwa [div_mul_cancel₀ _ hc0] at this
    have hL' : 0 < L := by
      rcases hL.lt_or_eq with h | h
      · exact h
      · rw [← h, zero_mul] at hLu; exact absurd hLu (lt_irrefl 0)
    exact (div_lt_div_iff_of_pos_right hc).mpr (mul_lt_mul_of_pos_left hvu hL')
  · intro h0
    have : L * u = 0 := by
      rcases div_eq_zero_iff.mp h0 with h | h
      · exact h
      · exact absurd h hc0
    rcases mul_eq_zero.mp this with h | h
    · rw [h, zero_mul, zero_div]
    · exact absurd h hu.ne'

/-! ## Claim theorems: the easy algebraic claims -/

/-- Claim C2: the aggregate record returned by `calculateMortgage` consists
exactly of the values of the component functions on the identical four
inputs, with `capital = P - D`, `totalRepayment = monthlyPayment * T * 12`
and `interest = totalRepayment - capital`. -/
theorem calculateMortgage_aggregate_consistency (P D r T : ℚ) :
    (calculateMortgage P D r T).monthlyPayment = calculateMonthlyPayment P D r T ∧
    (calculateMortgage P D r T).capital = calculateCapital P D ∧
    calculateCapital P D = P - D ∧
    (calculateMortgage P D r T).totalRepayment
      = calculateTotalRepayment (calculateMonthlyPayment P D r T) T ∧
    calculateTotalRepayment (calculateMonthlyPayment P D r T) T
      = calculateMonthlyPayment P D r T * T * 12 ∧
    (calculateMortgage P D r T).interest
      = calculateInterest
          (calculateTotalRepayment (calculateMonthlyPayment P D r T) T)
          (calculateCapital P D) ∧
    calculateInterest
        (calculateTotalRepayment (calculateMonthlyPayment P D r T) T)
        (calculateCapital P D)
      = calculateTotalRepayment (calculateMonthlyPayment P D r T) T
          - calculateCapital P D ∧
    (calculateMortgage P D r T).affordabilityCheck
      = calculateAffordabilityCheck P D r T ∧
    (calculateMortgage P D r T).yearlyBreakdown
      = calculateYearlyBreakdown P D r T :=
  ⟨rfl, rfl, rfl, rfl, rfl, rfl, rfl, rfl, rfl⟩

/-- Claim C3: at a zero annual rate the monthly interest rate is exactly
zero, the straight-line branch is taken, and the payment is exactly
`(P - D) / (T * 12)`. -/
theorem calculateMonthlyPayment_zero_rate (P D T : ℚ) :
    calculateMonthlyPayment P D 0 T = (P - D) / (T * 12) := by
  unfold calculateMonthlyPayment
  norm_num

/-- Claim C4: the affordability check is exactly the monthly payment
recomputed at the rate increased by 3 percentage points, other parameters
unchanged. -/
theorem calculateAffordabilityCheck_is_stressed_payment (P D r T : ℚ) :
    calculateAffordabilityCheck P D r T
      = calculateMonthlyPayment P D (r + 3) T :=
  rfl

/-- Claim C5: the schedule always has `(⌊T⌋).toNat` snapshots — `T` of them
at a positive whole-year term, `⌊T⌋` at a nonnegative fractional term (so
none at all for `0 ≤ T < 1`) — and the year field of snapshot `j` (0-based)
is exactly `j + 1`, hence the years run `1, 2, …` in strictly increasing
chronological order. -/
theorem calculateYearlyBreakdown_years (P D r T : ℚ) (h : 0 ≤ T) :
    (calculateYearlyBreakdown P D r T).length = (⌊T⌋).toNat ∧
      ∀ j : ℕ, j < (⌊T⌋).toNat → snapshotYear P D r T j = (j : ℚ) + 1 := by
  refine ⟨calculateYearlyBreakdown_length P D r T, ?_⟩
  intro j hj
  unfold snapshotYear
  rw [calculateYearlyBreakdown_getD _ _ _ _ _ hj]
  push_cast
  ring

set_option maxRecDepth 8000

/-- Witness for claim C5 at the fractional term `T = 5/2`: the hypothesis
`0 ≤ 5/2` holds and the schedule has `⌊5/2⌋ = 2` snapshots. -/
theorem calculateYearlyBreakdown_years_witness :
    (0 : ℚ) ≤ 5 / 2 ∧
      (calculateYearlyBreakdown 100 10 0 (5 / 2)).length = (⌊(5 / 2 : ℚ)⌋).toNat :=
  ⟨by norm_num, (calculateYearlyBreakdown_years 100 10 0 (5 / 2) (by norm_num)).1⟩

/-- Claim C6: every remaining debt reported in any snapshot of any schedule
is nonnegative, because each snapshot is taken right after a clamped month
step. -/
theorem calculateYearlyBreakdown_debt_nonneg (P D r T : ℚ) (p : ℚ × ℚ)
    (hp : p ∈ calculateYearlyBreakdown P D r T) : 0 ≤ p.2 := by
  unfold calculateYearlyBreakdown at hp
  exact mem_breakdownAux_nonneg _ _ _ _ _ _ hp

/-- Witness for claim C6: the snapshot `(1, 11)` really occurs in the
schedule for `(0, 24, 0, 2)` and its debt is nonnegative. -/
theorem calculateYearlyBreakdown_debt_nonneg_witness :
    ((1 : ℚ), (11 : ℚ)) ∈ calculateYearlyBreakdown 0 24 0 2 ∧
      (0 : ℚ) ≤ ((1 : ℚ), (11 : ℚ)).2 :=
  ⟨by with_unfolding_all decide,
    calculateYearlyBreakdown_debt_nonneg 0 24 0 2 (1, 11)
      (by with_unfolding_all decide)⟩

/-- Claim C10: at a zero rate, a whole-year term `T` and `D ≤ P`, the
schedule is exactly linear — year `y` (1-based, `1 ≤ y ≤ T`) shows
remaining debt `(P - D) * (T - y) / T` exactly — and the clamp branch never
fires: iterating the unclamped loop body gives the same balances as the
real loop throughout the term. -/
theorem zero_rate_breakdown_linear (P D : ℚ) (T y : ℕ) (hD : D ≤ P)
    (h1 : 1 ≤ y) (hyT : y ≤ T) :
    (calculateYearlyBreakdown P D 0 (T : ℚ)).getD (y - 1) (0, 0)
        = ((y : ℚ), (P - D) * ((T : ℚ) - (y : ℚ)) / (T : ℚ)) ∧
      ∀ k : ℕ, k ≤ 12 * T →
        (rawMonthStep 0 (calculateMonthlyPayment P D 0 (T : ℚ)))^[k]
            (calculateCapital P D)
          = (monthStep 0 (calculateMonthlyPayment P D 0 (T : ℚ)))^[k]
            (calculateCapital P D) := by
  have hT : 0 < T := by omega
  have hL : 0 ≤ P - D := sub_nonneg.mpr hD
  have hT0 : ((T : ℚ)) ≠ 0 := Nat.cast_ne_zero.mpr hT.ne'
  constructor
  · have hj : y - 1 < (⌊(T : ℚ)⌋).toNat := by rw [floor_toNat_natCast]; omega
    rw [calculateYearlyBreakdown_getD _ _ _ _ _ hj,
      show (1 + (y - 1) : ℕ) = y by omega]
    simp only [Prod.mk.injEq]
    refine ⟨trivial, ?_⟩
    rw [show ((0 : ℚ) / 100 / 12) = 0 by norm_num,
      calculateMonthlyPayment_zero_rate_nat,
      show calculateCapital P D = P - D from rfl,
      iterate_monthStep_zero_rate (P - D) (12 * T) hL (by omega)
        (12 * (y - 1 + 1)) (by omega),
      show (y - 1 + 1 : ℕ) = y by omega]
    push_cast
    field_simp
    ring
  · intro k hk
    rw [calculateMonthlyPayment_zero_rate_nat,
      show calculateCapital P D = P - D from rfl,
      iterate_rawMonthStep_zero_rate (P - D) (12 * T) (by omega) k,
      iterate_monthStep_zero_rate (P - D) (12 * T) hL (by omega) k hk]

/-- Witness for claim C10 at `(P, D, r, T) = (120, 0, 0, 3)`, year `y = 2`:
the snapshot at index 1 is `(2, 120 * (3 - 2) / 3) = (2, 40)`. -/
theorem zero_rate_breakdown_linear_witness :
    (0 : ℚ) ≤ 120 ∧ 1 ≤ 2 ∧ 2 ≤ 3 ∧
      (calculateYearlyBreakdown 120 0 0 ((3 : ℕ) : ℚ)).getD (2 - 1) (0, 0)
        = (((2 : ℕ) : ℚ),
           (120 - 0) * (((3 : ℕ) : ℚ) - ((2 : ℕ) : ℚ)) / ((3 : ℕ) : ℚ)) :=
  ⟨by norm_num, by norm_num, by norm_num,
    (zero_rate_breakdown_linear 120 0 3 2 (by norm_num) (by norm_num)
      (by norm_num)).1⟩

/-- Claim C1 fails as stated: with `propertyPrice = 0`, `deposit = 24`,
rate `0` and term `2`, the schedule is `[(1, 11), (2, 23)]` — the remaining
debt increases from year 1 to year 2, so the sequence is not monotonically
non-increasing. -/
theorem breakdown_monotone_counterexample :
    ¬ (snapshotDebt 0 24 0 2 1 ≤ snapshotDebt 0 24 0 2 0) := by
  with_unfolding_all decide

/-- Claim C1, amended: the invariant holds when the deposit does not exceed
the property price, the rate is nonnegative and the term is a whole number
of years.  For consecutive snapshots `j` and `j + 1` of the schedule the
remaining debt is non-increasing, is strictly decreasing while it is still
positive, and once it is `0` it stays `0`. -/
theorem breakdown_monotone_amended (P D r : ℚ) (T j : ℕ) (hD : D ≤ P)
    (hr : 0 ≤ r) (hj : j + 1 < T) :
    snapshotDebt P D r (T : ℚ) (j + 1) ≤ snapshotDebt P D r (T : ℚ) j ∧
      (0 < snapshotDebt P D r (T : ℚ) j →
        snapshotDebt P D r (T : ℚ) (j + 1) < snapshotDebt P D r (T : ℚ) j) ∧
      (snapshotDebt P D r (T : ℚ) j = 0 →
        snapshotDebt P D r (T : ℚ) (j + 1) = 0) := by
  have hjT : j < T := by omega
  have hT : 0 < T := by omega
  have hL : 0 ≤ P - D := sub_nonneg.mpr hD
  rcases hr.eq_or_lt with h0 | hpos
  · subst h0
    rw [snapshotDebt_zero_rate P D T j hjT hD,
      snapshotDebt_zero_rate P D T (j + 1) hj hD]
    have hTq : (0 : ℚ) < (T : ℚ) := by exact_mod_cast hT
    have hu : (0 : ℚ) < (T : ℚ) - ((j : ℚ) + 1) := by
      have hcast : ((j : ℚ) + 1) < (T : ℚ) := by exact_mod_cast hj
      linarith
    have hvu : (T : ℚ) - (((j + 1 : ℕ) : ℚ) + 1) < (T : ℚ) - ((j : ℚ) + 1) := by
      push_cast
      linarith
    exact step_triple (P - D) ((T : ℚ) - ((j : ℚ) + 1))
      ((T : ℚ) - (((j + 1 : ℕ) : ℚ) + 1)) (T : ℚ) hL hTq hvu hu
  · rw [snapshotDebt_pos_rate P D r T j hjT hD hpos,
      snapshotDebt_pos_rate P D r T (j + 1) hj hD hpos]
    have hi : 0 < r / 100 / 12 := by positivity
    have hA : 1 < 1 + r / 100 / 12 := by linarith
    have hAN : 1 < (1 + r / 100 / 12) ^ (12 * T) := one_lt_pow₀ hA (by omega)
    have hden : (0 : ℚ) < (1 + r / 100 / 12) ^ (12 * T) - 1 := by linarith
    have hmidlt : (1 + r / 100 / 12) ^ (12 * (j + 1))
        < (1 + r / 100 / 12) ^ (12 * (j + 1 + 1)) :=
      pow_lt_pow_right₀ hA (by omega)
    have hmidle : (1 + r / 100 / 12) ^ (12 * (j + 1 + 1))
        ≤ (1 + r / 100 / 12) ^ (12 * T) :=
      pow_le_pow_right₀ hA.le (by omega)
    have hu : (0 : ℚ) < (1 + r / 100 / 12) ^ (12 * T)
        - (1 + r / 100 / 12) ^ (12 * (j + 1)) := by linarith
    have hvu : (1 + r / 100 / 12) ^ (12 * T)
          - (1 + r / 100 / 12) ^ (12 * (j + 1 + 1))
        < (1 + r / 100 / 12) ^ (12 * T)
          - (1 + r / 100 / 12) ^ (12 * (j + 1)) := by linarith
    exact step_triple (P - D) _ _ _ hL hden hvu hu

/-- The annuity sum is positive for a nonnegative rate and at least one
payment. -/
lemma annuitySum_pos (i : ℚ) (N : ℕ) (hi : 0 ≤ i) (hN : 0 < N) :
    0 < annuitySum i N := by
  have h1 : (0 : ℚ) < 1 + i := by linarith
  refine Finset.sum_pos (fun k _ => ?_) (Finset.nonempty_range_iff.mpr hN.ne')
  exact pow_pos (inv_pos.mpr h1) (k + 1)

/-- The annuity sum is antitone in the rate: a larger rate discounts every
future payment more. -/
lemma annuitySum_antitone (i j : ℚ) (N : ℕ) (hi : 0 ≤ i) (hij : i ≤ j) :
    annuitySum j N ≤ annuitySum i N := by
  refine Finset.sum_le_sum (fun k _ => ?_)
  have h1 : (0 : ℚ) < 1 + i := by linarith
  have hle : (1 + j)⁻¹ ≤ (1 + i)⁻¹ := inv_anti₀ h1 (by linarith)
  exact pow_le_pow_left₀ (inv_nonneg.mpr (by linarith)) hle (k + 1)

/-- Key identity: `annuitySum i N * (i * (1+i)^N) = (1+i)^N - 1` for a
positive rate, i.e. the annuity sum inverts the compound payment factor. -/
lemma annuitySum_mul (i : ℚ) (N : ℕ) (hi : 0 < i) :
    annuitySum i N * (i * (1 + i) ^ N) = (1 + i) ^ N - 1 := by
  have hA : (0 : ℚ) < 1 + i := by linarith
  have hA0 : (1 + i) ≠ 0 := hA.ne'
  have hSA : annuitySum i N * (1 + i) ^ N
      = ∑ k ∈ Finset.range N, (1 + i) ^ k := by
    rw [annuitySum, Finset.sum_mul,
      ← Finset.sum_range_reflect (fun k => (1 + i) ^ k) N]
    refine Finset.sum_congr rfl (fun k hk => ?_)
    have hkN : k < N := Finset.mem_range.mp hk
    have hsplit : (1 + i) ^ N = (1 + i) ^ (N - 1 - k) * (1 + i) ^ (k + 1) := by
      rw [← pow_add]
      congr 1
      omega
    rw [hsplit, inv_pow, mul_comm ((1 + i) ^ (N - 1 - k)) ((1 + i) ^ (k + 1)),
      ← mul_assoc, inv_mul_cancel₀ (pow_ne_zero _ hA0), one_mul]
  calc annuitySum i N * (i * (1 + i) ^ N)
      = (annuitySum i N * (1 + i) ^ N) * i := by ring
    _ = (∑ k ∈ Finset.range N, (1 + i) ^ k) * i := by rw [hSA]
    _ = (∑ k ∈ Finset.range N, (1 + i) ^ k) * ((1 + i) - 1) := by ring
    _ = (1 + i) ^ N - 1 := geom_sum_mul (1 + i) N

/-- Both branches of `calculateMonthlyPayment`, at a nonnegative rate and a
positive whole-year term, compute `(P - D) / annuitySum i (12 T)` where `i`
is the monthly rate. -/
lemma calculateMonthlyPayment_eq_div_annuitySum (P D r : ℚ) (T : ℕ)
    (hr : 0 ≤ r) (hT : 0 < T) :
    calculateMonthlyPayment P D r (T : ℚ)
      = (P - D) / annuitySum (r / 100 / 12) (12 * T) := by
  rcases hr.eq_or_lt with h0 | hpos
  · subst h0
    rw [calculateMonthlyPayment_zero_rate_nat,
      show ((0 : ℚ) / 100 / 12) = 0 by norm_num]
    congr 1
    rw [annuitySum]
    simp
  · have hi : 0 < r / 100 / 12 := by positivity
    have hA : 1 < 1 + r / 100 / 12 := by linarith
    have hAN : 1 < (1 + r / 100 / 12) ^ (12 * T) := one_lt_pow₀ hA (by omega)
    have hden : (0 : ℚ) < (1 + r / 100 / 12) ^ (12 * T) - 1 := by linarith
    have hS : annuitySum (r / 100 / 12) (12 * T)
        = ((1 + r / 100 / 12) ^ (12 * T) - 1)
            / (r / 100 / 12 * (1 + r / 100 / 12) ^ (12 * T)) := by
      rw [eq_div_iff (by positivity)]
      exact annuitySum_mul (r / 100 / 12) (12 * T) hi
    rw [calculateMonthlyPayment_pos_rate _ _ _ _ hi.ne', hS]
    rw [div_div_eq_mul_div]
    field_simp
    ring

/-- Claim C7 fails as stated: with `deposit > propertyPrice` the loan is
negative and the stressed payment is strictly below the nominal payment.
At `(100000, 200000, 0, 1)` the nominal payment is `-100000/12 ≈ -8333.33`
while the stressed payment is `≈ -8469.34`. -/
theorem affordability_dominates_counterexample :
    ¬ (calculateMonthlyPayment 100000 200000 0 1
        ≤ calculateAffordabilityCheck 100000 200000 0 1) := by
  with_unfolding_all decide

/-- Claim C7, amended: the stressed payment dominates the nominal payment
whenever the rate is nonnegative, the deposit does not exceed the property
price, and the term is a positive whole number of years. -/
theorem affordability_dominates_amended (P D r : ℚ) (T : ℕ) (hD : D ≤ P)
    (hr : 0 ≤ r) (hT : 0 < T) :
    calculateMonthlyPayment P D r (T : ℚ)
      ≤ calculateAffordabilityCheck P D r (T : ℚ) := by
  rw [calculateAffordabilityCheck_is_stressed_payment,
    calculateMonthlyPayment_eq_div_annuitySum P D r T hr hT,
    calculateMonthlyPayment_eq_div_annuitySum P D (r + 3) T (by linarith) hT]
  have hL : 0 ≤ P - D := sub_nonneg.mpr hD
  have hi : 0 ≤ r / 100 / 12 := by positivity
  have hij : r / 100 / 12 ≤ (r + 3) / 100 / 12 := by linarith
  have hS2 : 0 < annuitySum ((r + 3) / 100 / 12) (12 * T) :=
    annuitySum_pos _ _ (le_trans hi hij) (by omega)
  have hle : annuitySum ((r + 3) / 100 / 12) (12 * T)
      ≤ annuitySum (r / 100 / 12) (12 * T) :=
    annuitySum_antitone _ _ _ hi hij
  exact div_le_div_of_nonneg_left hL hS2 hle

/-- Witness for the amended claim C7 at `(100000, 5000, 5, 1)`. -/
theorem affordability_dominates_amended_witness :
    (5000 : ℚ) ≤ 100000 ∧ (0 : ℚ) ≤ 5 ∧ 0 < 1 ∧
      calculateMonthlyPayment 100000 5000 5 ((1 : ℕ) : ℚ)
        ≤ calculateAffordabilityCheck 100000 5000 5 ((1 : ℕ) : ℚ) :=
  ⟨by norm_num, by norm_num, by norm_num,
    affordability_dominates_amended 100000 5000 5 1 (by norm_num)
      (by norm_num) (by norm_num)⟩

/-- Witness for the amended claim C1 at `(24, 0, 0, 2)`, snapshots
`[(1, 12), (2, 0)]`: year 2 debt does not exceed year 1 debt. -/
theorem breakdown_monotone_amended_witness :
    (0 : ℚ) ≤ 24 ∧ (0 : ℚ) ≤ 0 ∧ 0 + 1 < 2 ∧
      snapshotDebt 24 0 0 ((2 : ℕ) : ℚ) (0 + 1)
        ≤ snapshotDebt 24 0 0 ((2 : ℕ) : ℚ) 0 :=
  ⟨by norm_num, le_refl 0, by norm_num,
    (breakdown_monotone_amended 24 0 0 2 0 (by norm_num) (le_refl 0)
      (by norm_num)).1⟩

/-- Claim C9: the literal scenario `calculateMortgage(100000, 5000, 5.25,
15)`: the monthly payment is `763.68` and the affordability check `921.63`
to within half a cent (two decimal places), the capital is exactly `95000`,
the yearly breakdown has exactly 15 snapshots, and the final snapshot's
remaining debt is (here exactly) `0`. -/
theorem calculateMortgage_scenario :
    |(calculateMortgage 100000 5000 (5.25) 15).monthlyPayment - 76368 / 100|
        < 1 / 200 ∧
      |(calculateMortgage 100000 5000 (5.25) 15).affordabilityCheck
          - 92163 / 100| < 1 / 200 ∧
      (calculateMortgage 100000 5000 (5.25) 15).capital = 95000 ∧
      ((calculateMortgage 100000 5000 (5.25) 15).yearlyBreakdown).length = 15 ∧
      (((calculateMortgage 100000 5000 (5.25) 15).yearlyBreakdown).getD 14
          (0, 0)).2 = 0 := by
  have h15 : (15 : ℚ) * 12 = ((180 : ℕ) : ℚ) := by norm_num
  have hcast : (15 : ℚ) = ((15 : ℕ) : ℚ) := by norm_num
  refine ⟨?_, ?_, ?_, ?_, ?_⟩
  · rw [show (calculateMortgage 100000 5000 (5.25) 15).monthlyPayment
        = calculateMonthlyPayment 100000 5000 (5.25) 15 from rfl,
      calculateMonthlyPayment]
    simp only [h15, jsPow_natCast]
    rw [if_neg (by norm_num), abs_sub_lt_iff]
    norm_num
  · rw [show (calculateMortgage 100000 5000 (5.25) 15).affordabilityCheck
        = calculateMonthlyPayment 100000 5000 (5.25 + 3) 15 from rfl,
      calculateMonthlyPayment]
    simp only [h15, jsPow_natCast]
    rw [if_neg (by norm_num), abs_sub_lt_iff]
    norm_num
  · rw [show (calculateMortgage 100000 5000 (5.25) 15).capital
        = (100000 : ℚ) - 5000 from rfl]
    norm_num
  · rw [show (calculateMortgage 100000 5000 (5.25) 15).yearlyBreakdown
        = calculateYearlyBreakdown 100000 5000 (5.25) 15 from rfl,
      calculateYearlyBreakdown_length, hcast, floor_toNat_natCast]
  · rw [show (((calculateMortgage 100000 5000 (5.25) 15).yearlyBreakdown).getD
          14 (0, 0)).2
        = snapshotDebt 100000 5000 (5.25) 15 14 from rfl,
      hcast,
      snapshotDebt_pos_rate 100000 5000 (5.25) 15 14 (by norm_num)
        (by norm_num) (by norm_num)]
    norm_num

end MortgageCalc
